import Mathlib

/-!
Verification of the bb-tools repository (Beyond Better tools SDK).

This file gives a shallow embedding, in Lean, of the parts of the source
relevant to the claims under audit:

* the formatting helper functions of `llm_tool_tags.tsx`
  (`formatDuration`, `formatBoolean`, the byte-size loop used by
  `TOOL_STYLES_CONSOLE.content.bytes`, `TOOL_STYLES_CONSOLE.content.size`
  and `createToolSize`);
* the `validateInput` path of `llm_tool.ts` specialised to the search
  tool input schema of the search-project example;
* the open-in-browser example tool
  (`examples/browser-plugin.bbplugin/open-in-browser.tool/tool.ts`):
  `isValidUrl`, `resolveLocalPath`, `openUrl` and `runTool`, with the
  externally observable effects (containment-check calls, file stats,
  open attempts) made explicit as an event trace;
* the result formatters of the search-project browser formatter and the
  open-in-browser console formatter.

JavaScript numbers are modelled as `Nat`/`Rat` (all values reached in the
claims are exactly representable as IEEE doubles, and division by 1024 is
exact there), JSX nodes by their text content, ANSI colour wrapping by the
identity (the colour escapes carry no data), and thrown exceptions by
`Except.error`.
-/

namespace BBTools

/-! ## Formatting helpers (llm_tool_tags.tsx) -/

/-- Embedding of `formatDuration` from `llm_tool_tags.tsx`: split a
millisecond count into days/hours/minutes/seconds by integer division
(`Math.floor` on nonnegative numbers is `Nat` division) and print only the
two largest units, seconds alone below one minute. -/
def formatDuration (ms : Nat) : String :=
  let seconds := ms / 1000
  let minutes := seconds / 60
  let hours := minutes / 60
  let days := hours / 24
  if days > 0 then toString days ++ "d " ++ toString (hours % 24) ++ "h"
  else if hours > 0 then toString hours ++ "h " ++ toString (minutes % 60) ++ "m"
  else if minutes > 0 then toString minutes ++ "m " ++ toString (seconds % 60) ++ "s"
  else toString seconds ++ "s"

/-- Fuel-driven splitter over character lists implementing JavaScript
`String.prototype.split` with a non-empty separator: scan left to right,
cutting at each first occurrence of the separator.  The fuel is set to the
input length, which bounds the number of steps; fuel 0 is reached only on
an empty remainder. -/
def jsSplit (sep : List Char) : Nat → List Char → List (List Char)
  | 0, cs => [cs]
  | fuel + 1, cs =>
      match cs with
      | [] => [[]]
      | c :: rest =>
          if sep.isPrefixOf cs then [] :: jsSplit sep fuel (cs.drop sep.length)
          else
            match jsSplit sep fuel rest with
            | g :: gs => (c :: g) :: gs
            | [] => [[c]]

/-- JavaScript `s.split(sep)` for the non-empty separators used by the
source (`"\n"`, `" "`, `": "`, `"/"`). -/
def jsSplitOn (s sep : String) : List String :=
  (jsSplit sep.toList s.toList.length s.toList).map String.mk

/-- Uppercase the first character of a string, leaving the rest alone
(the word shapes produced by the `formatBoolean` presets). -/
def capFirst (s : String) : String :=
  match s.toList with
  | [] => ""
  | c :: cs => String.mk (Char.toUpper c :: cs)

/-- Selection of a segment from a `trueWord/falseWord` token, as in the
last branch of `formatBoolean`: `format.split("/")[0]` when the value is
true, `format.split("/")[1]` when it is false.  In JavaScript an index
past the end of the split yields `undefined`; the claims only exercise
formats that contain a slash, where both indices exist. -/
def splitSelect (value : Bool) (format : String) : String :=
  (jsSplitOn format "/").getD (if value then 0 else 1) "undefined"

/-- The general path of `formatBoolean`: select the segment and uppercase
it wholesale, `(value ? format.split("/")[0] : format.split("/")[1]).toUpperCase()`. -/
def splitUpper (value : Bool) (format : String) : String :=
  String.mk ((splitSelect value format).toList.map Char.toUpper)

/-- Embedding of `formatBoolean` from `llm_tool_tags.tsx`: the three named
presets return fixed capitalised words; every other format token goes
through the split-and-uppercase path. -/
def formatBoolean (value : Bool) (format : String) : String :=
  if format = "yes/no" then (if value then "Yes" else "No")
  else if format = "enabled/disabled" then (if value then "Enabled" else "Disabled")
  else if format = "included/excluded" then (if value then "Included" else "Excluded")
  else splitUpper value format

/-- Unit table of the byte-size formatters, `["B", "KB", "MB", "GB"]`. -/
def byteUnits : List String := ["B", "KB", "MB", "GB"]

/-- Embedding of the loop shared by `TOOL_STYLES_CONSOLE.content.bytes`,
`TOOL_STYLES_CONSOLE.content.size` and `createToolSize`:
`while (size >= 1024 && unit < units.length - 1) { size /= 1024; unit++; }`.
The loop body runs at most three times (the unit index grows each pass and
the guard requires it below 3), so fuel 3 reproduces the while loop
exactly from the initial unit 0.  Division by 1024 on an IEEE double is
exact for the inputs concerned, so `Rat` division is a faithful model. -/
def bytesLoop : Nat → Rat → Nat → Rat × Nat
  | 0, size, unit => (size, unit)
  | fuel + 1, size, unit =>
      if 1024 ≤ size ∧ unit < 3 then bytesLoop fuel (size / 1024) (unit + 1)
      else (size, unit)

/-- Rounding used by both `Number.prototype.toFixed(d)` and
`Intl.NumberFormat` with `minimumFractionDigits = maximumFractionDigits = d`
(rounding mode halfExpand): for a nonnegative value, the scaled integer is
the floor of `value * 10^d + 1/2` (ties round away from zero). -/
def roundTo (d : Nat) (q : Rat) : Nat := (⌊q * (10 ^ d : Nat) + 1 / 2⌋).toNat

/-- Left-pad a digit string with zeros to the requested width. -/
def padLeftZeros (d : Nat) (s : String) : String :=
  if s.length < d then String.mk (List.replicate (d - s.length) '0') ++ s else s

/-- Group a reversed digit list in threes with commas, as the en-US locale
of `Intl.NumberFormat` does for the integer part. -/
def commaGroup : List Char → List Char
  | c1 :: c2 :: c3 :: c4 :: rest => c1 :: c2 :: c3 :: ',' :: commaGroup (c4 :: rest)
  | cs => cs

/-- Decimal rendering of a natural number with en-US thousands grouping. -/
def groupedRepr (n : Nat) : String :=
  String.mk ((commaGroup (toString n).toList.reverse).reverse)

/-- Embedding of the helper `formatNumber` of `llm_tool_tags.tsx` applied
with `minimumFractionDigits = maximumFractionDigits = d`:
`new Intl.NumberFormat("en-US", opts).format(num)` for a nonnegative
number.  `d = 0` prints no decimal point. -/
def formatNumberFixed (d : Nat) (q : Rat) : String :=
  if d = 0 then groupedRepr (roundTo 0 q)
  else
    let m := roundTo d q
    groupedRepr (m / 10 ^ d) ++ "." ++ padLeftZeros d (toString (m % 10 ^ d))

/-- Rendering of `Number.prototype.toFixed(1)` for a nonnegative value:
like `formatNumberFixed 1` but with no thousands grouping. -/
def toFixed1 (q : Rat) : String :=
  let m := roundTo 1 q
  toString (m / 10) ++ "." ++ toString (m % 10)

/-- Text produced by `TOOL_STYLES_CONSOLE.content.bytes(value, decimals)`
(the `colors.blue` ANSI wrapper carries no data and is omitted). -/
def bytesConsoleText (decimals : Nat) (value : Nat) : String :=
  let su := bytesLoop 3 (value : Rat) 0
  formatNumberFixed decimals su.1 ++ " " ++ byteUnits.getD su.2 ""

/-- Text produced by `TOOL_STYLES_CONSOLE.content.size(bytes)` (the
`colors.gray` ANSI wrapper carries no data and is omitted); the source
fixes one decimal place. -/
def sizeConsoleText (bytes : Nat) : String :=
  let su := bytesLoop 3 (bytes : Rat) 0
  formatNumberFixed 1 su.1 ++ " " ++ byteUnits.getD su.2 ""

/-- Text content of the span produced by `createToolSize(bytes)`:
`size.toFixed(1)` followed by the unit. -/
def createToolSizeText (bytes : Nat) : String :=
  let su := bytesLoop 3 (bytes : Rat) 0
  toFixed1 su.1 ++ " " ++ byteUnits.getD su.2 ""

/-! ## Input validation (llm_tool.ts `validateInput` with the search tool schema) -/

/-- JSON values as delivered to `validateInput`. -/
inductive JsonValue where
  | str (s : String)
  | num (n : Int)
  | bool (b : Bool)
  | null
  | arr (items : List JsonValue)
  | obj (fields : List (String × JsonValue))

/-- The primitive JSON-Schema types used by the search tool input schema. -/
inductive SimpleType where
  | string
  | number
  | boolean
deriving DecidableEq

/-- Top-level object schema shape used by the search tool: a `type:
"object"` schema with primitively-typed `properties` and a `required`
list.  The source schema carries only `type`, `description` and `default`
keywords per property; `description` and `default` do not constrain
validation, and no `pattern` or `format` keyword appears anywhere. -/
structure ObjectSchema where
  properties : List (String × SimpleType)
  required : List String

/-- Does a JSON value match a primitive schema type? -/
def typeMatches : SimpleType → JsonValue → Bool
  | .string, .str _ => true
  | .number, .num _ => true
  | .boolean, .bool _ => true
  | _, _ => false

/-- Standard JSON-Schema (draft-07, as applied by Ajv in
`LLMTool.validateInput`) semantics for such an object schema: the value
must be an object, every required name must be present, and every present
property named in `properties` must match its declared type; unknown
properties are allowed. -/
def validateAgainst (schema : ObjectSchema) (value : JsonValue) : Bool :=
  match value with
  | .obj fields =>
      schema.required.all (fun r => fields.any (fun kv => kv.1 == r)) &&
      fields.all (fun kv =>
        match schema.properties.lookup kv.1 with
        | some t => typeMatches t kv.2
        | none => true)
  | _ => false

/-- The input schema returned by the search-project tool
(`SearchProjectTool.inputSchema`): all free-text criteria are plain
strings, the size bounds are numbers, the case flag is a boolean, and no
property is required. -/
def searchProjectInputSchema : ObjectSchema :=
  ⟨[("contentPattern", .string), ("caseSensitive", .boolean), ("filePattern", .string),
    ("dateAfter", .string), ("dateBefore", .string), ("sizeMin", .number),
    ("sizeMax", .number)], []⟩

/-- `LLMTool.validateInput` (llm_tool.ts) specialised to the search tool:
compile the tool input schema and apply it to the candidate input. -/
def searchValidateInput (input : JsonValue) : Bool :=
  validateAgainst searchProjectInputSchema input

/-! ## The open-in-browser tool
(examples/browser-plugin.bbplugin/open-in-browser.tool/tool.ts)

The tool runs against external capabilities: the WHATWG URL parser (`new
URL(...)`), the project editor, `Deno.stat`, and the npm `open` package.
These are modelled as an environment of pure functions fixing each
outcome; the externally observable actions are recorded as an event
trace. -/

/-- Outcomes of the external collaborators of the open-in-browser tool.
`isPathWithinProject` holds the boolean that the promise returned by
`IProjectEditor.isPathWithinProject` resolves to; `statOk` tells whether
`Deno.stat` succeeds at a path; `urlParses` tells whether the `URL`
constructor accepts a string; `openOk`/`openErrMsg` fix the outcome of the
`open` call; the `apps` fields are the constants imported from the npm
`open` package. -/
structure ProjectEditorEnv where
  isPathWithinProject : String → Bool
  resolveProjectFilePath : String → String
  statOk : String → Bool
  urlParses : String → Bool
  openOk : String → Bool
  openErrMsg : String → String
  appsBrowser : String
  appsChrome : String
  appsBrave : String
  appsFirefox : String
  appsEdge : String

/-- Externally observable actions of one `runTool` call. -/
inductive Event where
  | checkWithin (path : String)
  | statPath (path : String)
  | openAttempt (url : String) (app : String)
deriving DecidableEq

/-- A JavaScript `Promise` object is always truthy.  The source tests
`!projectEditor.isPathWithinProject(path)` without awaiting the promise
(the interface in project_editor.ts declares `Promise<boolean>`), so the
negation is applied to the promise object itself, and the condition is
constantly false. -/
def promiseIsTruthy : Bool := true

/-- Embedding of `LLMToolOpenInBrowser.isValidUrl`: whether `new
URL(urlString)` succeeds. -/
def isValidUrl (env : ProjectEditorEnv) (urlString : String) : Bool :=
  env.urlParses urlString

/-- Embedding of the browser-name conditional chain in
`LLMToolOpenInBrowser.openUrl`. -/
def resolveBrowser (env : ProjectEditorEnv) (browser : String) : String :=
  if browser = "default" then env.appsBrowser
  else if browser = "chrome" then env.appsChrome
  else if browser = "brave" then env.appsBrave
  else if browser = "firefox" then env.appsFirefox
  else if browser = "edge" then env.appsEdge
  else browser

/-- Embedding of `LLMToolOpenInBrowser.openUrl`: attempt to open the URL
in the selected browser, returning the success message or, when the `open`
call fails, the wrapped error. -/
def openUrl (env : ProjectEditorEnv) (url browser : String) :
    Except String String × List Event :=
  let useBrowser := resolveBrowser env browser
  if env.openOk url then
    (Except.ok ("Successfully sent command to open " ++ url ++ " in " ++ useBrowser),
     [Event.openAttempt url useBrowser])
  else
    (Except.error ("Failed to open URL " ++ url ++ ": " ++ env.openErrMsg url),
     [Event.openAttempt url useBrowser])

/-- Embedding of `LLMToolOpenInBrowser.resolveLocalPath`.  The call to
`projectEditor.isPathWithinProject(path)` happens first (recorded as a
`checkWithin` event), but the code negates the un-awaited promise, so the
outside-project branch is taken only if a promise object were falsy,
which never happens; the resolved value of the containment check is never
consulted.  The path is then resolved, `Deno.stat` is attempted, and the
path becomes a `file://` URL. -/
def resolveLocalPath (env : ProjectEditorEnv) (path : String) :
    Except String String × List Event :=
  if !promiseIsTruthy then
    (Except.error ("Path " ++ path ++ " is outside project root"),
     [Event.checkWithin path])
  else
    let absolutePath := env.resolveProjectFilePath path
    if env.statOk absolutePath then
      (Except.ok ("file://" ++ absolutePath),
       [Event.checkWithin path, Event.statPath absolutePath])
    else
      (Except.error ("File " ++ path ++ " does not exist"),
       [Event.checkWithin path, Event.statPath absolutePath])

/-- One iteration of the `for (const url of urls)` loop body before the
catch: pick the final URL (as-is when the URL constructor accepts it,
otherwise via `resolveLocalPath`), then open it. -/
def processUrl (env : ProjectEditorEnv) (browser url : String) :
    Except String String × List Event :=
  if isValidUrl env url then openUrl env url browser
  else
    match resolveLocalPath env url with
    | (Except.ok finalUrl, evs) =>
        let r := openUrl env finalUrl browser
        (r.1, evs ++ r.2)
    | (Except.error e, evs) => (Except.error e, evs)

/-- The text block pushed onto `toolResultContentParts` for one URL:
the success message, or the caught error prefixed with
`Error opening URL ... - `. -/
def itemText (env : ProjectEditorEnv) (browser url : String) : String :=
  match (processUrl env browser url).1 with
  | Except.ok result => result
  | Except.error e => "Error opening URL " ++ url ++ " - " ++ e

/-- Tool input after destructuring: the URL list and the optional browser
selector (defaulting to "default" when absent). -/
structure OpenInBrowserInput where
  urls : List String
  browser : Option String

/-- The parts of `LLMToolRunResult` built by the open-in-browser tool:
the text of each pushed content part in order, the tool response string,
and the `bbResponse.data` success and error lists. -/
structure RunResult where
  toolResults : List String
  toolResponse : String
  opensSuccess : List String
  opensError : List String
deriving DecidableEq

/-- The `for (const url of urls)` loop of `runTool`: accumulate, in input
order, the per-item content parts, the success list, the error list (as
url-message pairs) and the event trace. -/
def runLoop (env : ProjectEditorEnv) (browser : String) :
    List String → List String × List String × List (String × String) × List Event
  | [] => ([], [], [], [])
  | url :: rest =>
      let pr := processUrl env browser url
      let acc := runLoop env browser rest
      match pr.1 with
      | Except.ok result =>
          (result :: acc.1, result :: acc.2.1, acc.2.2.1, pr.2 ++ acc.2.2.2)
      | Except.error e =>
          (("Error opening URL " ++ url ++ " - " ++ e) :: acc.1, acc.2.1,
           (url, e) :: acc.2.2.1, pr.2 ++ acc.2.2.2)

/-- `maxUrls` of the open-in-browser tool. -/
def maxUrls : Nat := 6

/-- Embedding of `LLMToolOpenInBrowser.runTool`: fail outright past the
URL cap, otherwise run the loop and assemble the result; a throw is an
`Except.error`, and the second component is the event trace of the whole
call. -/
def runTool (env : ProjectEditorEnv) (input : OpenInBrowserInput) :
    Except String RunResult × List Event :=
  let urls := input.urls
  let browser := input.browser.getD "default"
  if urls.length > maxUrls then
    (Except.error ("Too many URLs provided. Maximum allowed is " ++ toString maxUrls), [])
  else
    let acc := runLoop env browser urls
    let toolResponse :=
      if acc.2.2.1.length = 0 then
        "Successfully opened " ++ toString urls.length ++ " URL(s) in " ++
          (if browser = "default" then "default browser" else browser)
      else
        "Encountered " ++ toString acc.2.2.1.length ++
          " error(s) while opening URLs. Check tool results for details."
    (Except.ok
      { toolResults := acc.1
        toolResponse := toolResponse
        opensSuccess := acc.2.1
        opensError := acc.2.2.1.map (fun pe => pe.1 ++ " could not be opened - " ++ pe.2) },
     acc.2.2.2)

/-- The per-item error pairs accumulated by the loop (the `opensError`
array before its final mapping into messages). -/
def loopErrs (env : ProjectEditorEnv) (browser : String) (urls : List String) :
    List (String × String) :=
  (runLoop env browser urls).2.2.1

/-! ## Result formatters

Two `formatLogEntryToolResult` implementations are relevant: the
search-project browser formatter (which parses a flat result string) and
the open-in-browser console formatter (which branches on the shape of
`bbResponse`).  JSX nodes are modelled by their text content and thrown
exceptions by `Except.error`. -/

/-- An environment in which every candidate path is reported outside the
project (the containment promise resolves to false for every path), no
string parses as a URL, and every stat and open succeeds. -/
def envAllOutside : ProjectEditorEnv :=
  ⟨fun _ => false, fun p => "/project/" ++ p, fun _ => true, fun _ => false,
   fun _ => true, fun _ => "", "browser", "chrome", "brave", "firefox", "edge"⟩

/-- An environment in which exactly the string `https://ok.com` parses as
a URL and opens successfully, and every stat fails, so any local path
fails with a file-not-found error. -/
def envOneBad : ProjectEditorEnv :=
  ⟨fun _ => true, fun p => "/project/" ++ p, fun _ => false,
   fun s => s == "https://ok.com", fun s => s == "https://ok.com",
   fun _ => "boom", "browser", "chrome", "brave", "firefox", "edge"⟩

/-- An environment in which every string parses as a URL and opens
successfully. -/
def envParseAll : ProjectEditorEnv :=
  ⟨fun _ => true, fun p => p, fun _ => true, fun _ => true,
   fun _ => true, fun _ => "", "browser", "chrome", "brave", "firefox", "edge"⟩

/-- A seven-URL input, one past the cap. -/
def inputSeven : OpenInBrowserInput :=
  ⟨["u1", "u2", "u3", "u4", "u5", "u6", "u7"], none⟩

/-- A two-URL input whose second entry fails under `envOneBad`. -/
def inputOneBad : OpenInBrowserInput :=
  ⟨["https://ok.com", "bad.path"], none⟩

/-! ## Helper lemmas -/

/-- The per-item content parts accumulated by the loop are exactly the
input URLs mapped through the per-item processing, in input order. -/
theorem runLoop_parts (env : ProjectEditorEnv) (b : String) :
    ∀ urls : List String, (runLoop env b urls).1 = urls.map (itemText env b) := by
  intro urls
  induction urls with
  | nil => rfl
  | cons url rest ih =>
      simp only [runLoop, List.map]
      cases h : (processUrl env b url).1 <;> simp [itemText, h, ih]

/-- Unfolding of `runTool` below the URL cap. -/
theorem runTool_ok_eq (env : ProjectEditorEnv) (input : OpenInBrowserInput)
    (h : input.urls.length ≤ 6) :
    (runTool env input).1 = Except.ok
      { toolResults := (runLoop env (input.browser.getD "default") input.urls).1
        toolResponse :=
          if (loopErrs env (input.browser.getD "default") input.urls).length = 0 then
            "Successfully opened " ++ toString input.urls.length ++ " URL(s) in " ++
              (if input.browser.getD "default" = "default" then "default browser"
               else input.browser.getD "default")
          else
            "Encountered " ++
              toString (loopErrs env (input.browser.getD "default") input.urls).length ++
              " error(s) while opening URLs. Check tool results for details."
        opensSuccess := (runLoop env (input.browser.getD "default") input.urls).2.1
        opensError := (loopErrs env (input.browser.getD "default") input.urls).map
          (fun pe => pe.1 ++ " could not be opened - " ++ pe.2) } := by
  have hnot : ¬ (input.urls.length > maxUrls) := by simp only [maxUrls]; omega
  simp only [runTool, loopErrs, if_neg hnot]

/-- Below 1024 the byte loop never runs. -/
theorem bytesLoop_unit_B {n : Nat} (h : n < 1024) :
    bytesLoop 3 (n : Rat) 0 = ((n : Rat), 0) := by
  have hq : (n : Rat) < 1024 := by exact_mod_cast h
  simp [bytesLoop, not_le.mpr hq]

/-- Between 1024 and 1024 squared the byte loop runs exactly once. -/
theorem bytesLoop_unit_KB {n : Nat} (h1 : 1024 ≤ n) (h2 : n < 1024 * 1024) :
    bytesLoop 3 (n : Rat) 0 = ((n : Rat) / 1024, 1) := by
  have hq1 : (1024 : Rat) ≤ (n : Rat) := by exact_mod_cast h1
  have hq2 : (n : Rat) / 1024 < 1024 := by
    rw [div_lt_iff₀ (by norm_num : (0 : Rat) < 1024)]
    exact_mod_cast h2
  simp [bytesLoop, hq1, not_le.mpr hq2]

/-! ## Claim theorems -/

/-- C1, evaluation of the code at the failing input: with every path
reported outside the project (the containment promise resolves to false
for every path), `runTool` on the single local path `../outside.html`
still calls `resolveProjectFilePath`, performs a `Deno.stat`, attempts the
open, and returns a success result with an empty `opensError` list — no
path-outside-project error is ever recorded, because the source negates
the un-awaited promise returned by `isPathWithinProject`, which is always
truthy. -/
theorem runTool_outside_path_divergence :
    envAllOutside.isPathWithinProject "../outside.html" = false ∧
    (runTool envAllOutside ⟨["../outside.html"], none⟩).2 =
      [Event.checkWithin "../outside.html",
       Event.statPath "/project/../outside.html",
       Event.openAttempt "file:///project/../outside.html" "browser"] ∧
    (runTool envAllOutside ⟨["../outside.html"], none⟩).1 = Except.ok
      { toolResults :=
          ["Successfully sent command to open file:///project/../outside.html in browser"]
        toolResponse := "Successfully opened 1 URL(s) in default browser"
        opensSuccess :=
          ["Successfully sent command to open file:///project/../outside.html in browser"]
        opensError := [] } :=
  ⟨rfl, rfl, rfl⟩

/-- C2: with more than six URLs, `runTool` fails with the Too-many-URLs
error before processing any item — the event trace is empty, so no URL is
resolved, stat-ed or opened, and no per-item result exists. -/
theorem runTool_cap_fail_fast (env : ProjectEditorEnv) (input : OpenInBrowserInput)
    (h : input.urls.length > 6) :
    runTool env input =
      (Except.error "Too many URLs provided. Maximum allowed is 6", []) := by
  have h6 : input.urls.length > maxUrls := h
  simp only [runTool, if_pos h6]
  rfl

/-- Witness for C2 at a concrete seven-URL input. -/
theorem runTool_cap_fail_fast_witness :
    runTool envAllOutside inputSeven =
      (Except.error "Too many URLs provided. Maximum allowed is 6", []) :=
  runTool_cap_fail_fast envAllOutside inputSeven (by decide)

/-- C6: the search tool input schema types `dateAfter` as a plain string
with no pattern or format constraint, so `validateInput` accepts
`{ filePattern: "*.ts", dateAfter: "invalid-date" }`; any rejection of
malformed dates would have to happen inside `runTool`, not at the schema
layer. -/
theorem searchValidateInput_accepts_invalid_date :
    searchValidateInput (JsonValue.obj
      [("filePattern", JsonValue.str "*.ts"),
       ("dateAfter", JsonValue.str "invalid-date")]) = true := by
  rfl

/-- C8: `formatDuration` derives days/hours/minutes/seconds by integer
division; every duration below one minute renders as seconds only, and
the unit boundaries behave as stated: 59999 ms is `59s`, 60000 ms is
`1m 0s`, 3600000 ms is `1h 0m`, 86400000 ms is `1d 0h`. -/
theorem formatDuration_spec :
    (∀ ms : Nat, ms < 60000 → formatDuration ms = toString (ms / 1000) ++ "s") ∧
    formatDuration 59999 = "59s" ∧ formatDuration 60000 = "1m 0s" ∧
    formatDuration 3600000 = "1h 0m" ∧ formatDuration 86400000 = "1d 0h" := by
  refine ⟨?_, rfl, rfl, rfl, rfl⟩
  intro ms h
  have h2 : ms / 1000 / 60 = 0 := by omega
  simp [formatDuration, h2]

/-- Witness for C8 at 42000 ms. -/
theorem formatDuration_spec_witness :
    formatDuration 42000 = toString (42000 / 1000) ++ "s" :=
  formatDuration_spec.1 42000 (by norm_num)

/-- C3: with at most six URLs of which some fail, `runTool` returns a
normal result rather than throwing: one per-item record per input URL,
and a tool response summarising the error count. -/
theorem runTool_soft_failures (env : ProjectEditorEnv) (input : OpenInBrowserInput)
    (hlen : input.urls.length ≤ 6)
    (herr : loopErrs env (input.browser.getD "default") input.urls ≠ []) :
    ∃ r : RunResult, (runTool env input).1 = Except.ok r ∧
      r.toolResults.length = input.urls.length ∧
      r.toolResponse = "Encountered " ++
        toString (loopErrs env (input.browser.getD "default") input.urls).length ++
        " error(s) while opening URLs. Check tool results for details." := by
  refine ⟨_, runTool_ok_eq env input hlen, ?_, ?_⟩
  · simp [runLoop_parts]
  · have hlen0 : (loopErrs env (input.browser.getD "default") input.urls).length ≠ 0 := by
      simpa [List.length_eq_zero] using herr
    simp [hlen0]

/-- Witness for C3: two URLs of which the second fails. -/
theorem runTool_soft_failures_witness :
    ∃ r : RunResult, (runTool envOneBad inputOneBad).1 = Except.ok r ∧
      r.toolResults.length = inputOneBad.urls.length ∧
      r.toolResponse = "Encountered " ++
        toString (loopErrs envOneBad "default" inputOneBad.urls).length ++
        " error(s) while opening URLs. Check tool results for details." :=
  runTool_soft_failures envOneBad inputOneBad (by decide) (by decide)

/-- C4: with at most six URLs, the per-item result list of `runTool` is
the input list mapped through the per-item processing — it has exactly one
entry per input URL, in input order, whatever the mix of successes and
failures. -/
theorem runTool_order_preserved (env : ProjectEditorEnv) (input : OpenInBrowserInput)
    (hlen : input.urls.length ≤ 6) :
    ∃ r : RunResult, (runTool env input).1 = Except.ok r ∧
      r.toolResults = input.urls.map (itemText env (input.browser.getD "default")) ∧
      r.toolResults.length = input.urls.length := by
  refine ⟨_, runTool_ok_eq env input hlen, ?_, ?_⟩ <;> simp [runLoop_parts]

/-- Witness for C4 at the concrete two-URL input. -/
theorem runTool_order_preserved_witness :
    ∃ r : RunResult, (runTool envOneBad inputOneBad).1 = Except.ok r ∧
      r.toolResults = inputOneBad.urls.map (itemText envOneBad "default") ∧
      r.toolResults.length = inputOneBad.urls.length :=
  runTool_order_preserved envOneBad inputOneBad (by decide)

/-- C7: the byte-size formatters choose unit `B` with the raw value below
1024, unit `KB` with the value divided by 1024 once between 1024 and 1024
squared, and 1048576 renders as `1.0 MB` (not `1024.0 KB`) in all three
formatters. -/
theorem byteSize_spec :
    (∀ n : Nat, n < 1024 →
        sizeConsoleText n = formatNumberFixed 1 (n : Rat) ++ " " ++ "B" ∧
        bytesConsoleText 1 n = formatNumberFixed 1 (n : Rat) ++ " " ++ "B" ∧
        createToolSizeText n = toFixed1 (n : Rat) ++ " " ++ "B") ∧
    (∀ n : Nat, 1024 ≤ n → n < 1024 * 1024 →
        sizeConsoleText n = formatNumberFixed 1 ((n : Rat) / 1024) ++ " " ++ "KB" ∧
        bytesConsoleText 1 n = formatNumberFixed 1 ((n : Rat) / 1024) ++ " " ++ "KB" ∧
        createToolSizeText n = toFixed1 ((n : Rat) / 1024) ++ " " ++ "KB") ∧
    sizeConsoleText 1048576 = "1.0 MB" ∧ bytesConsoleText 1 1048576 = "1.0 MB" ∧
    createToolSizeText 1048576 = "1.0 MB" ∧ sizeConsoleText 1048576 ≠ "1024.0 KB" := by
  have lMB : bytesLoop 3 (1048576 : Rat) 0 = (1, 2) := by norm_num [bytesLoop]
  have r1 : roundTo 1 (1 : Rat) = 10 := by
    have h10 : ⌊(1 : Rat) * (10 ^ 1 : Nat) + 1 / 2⌋ = 10 := by push_cast; norm_num
    unfold roundTo
    rw [h10]
    rfl
  have huB : byteUnits.getD 0 "" = "B" := rfl
  have huKB : byteUnits.getD 1 "" = "KB" := rfl
  have hsz : sizeConsoleText 1048576 = "1.0 MB" := by
    simp [sizeConsoleText, lMB, byteUnits, formatNumberFixed, r1]
    decide
  refine ⟨?_, ?_, hsz, ?_, ?_, ?_⟩
  · intro n h
    exact ⟨by simp only [sizeConsoleText, bytesLoop_unit_B h, huB],
      by simp only [bytesConsoleText, bytesLoop_unit_B h, huB],
      by simp only [createToolSizeText, bytesLoop_unit_B h, huB]⟩
  · intro n h1 h2
    exact ⟨by simp only [sizeConsoleText, bytesLoop_unit_KB h1 h2, huKB],
      by simp only [bytesConsoleText, bytesLoop_unit_KB h1 h2, huKB],
      by simp only [createToolSizeText, bytesLoop_unit_KB h1 h2, huKB]⟩
  · simp [bytesConsoleText, lMB, byteUnits, formatNumberFixed, r1]
    decide
  · simp [createToolSizeText, lMB, byteUnits, toFixed1, r1]
    decide
  · rw [hsz]
    decide

/-- Witness for C7 at 1536 bytes (1.5 KB). -/
theorem byteSize_spec_witness :
    sizeConsoleText 1536 = formatNumberFixed 1 ((1536 : Rat) / 1024) ++ " " ++ "KB" :=
  (byteSize_spec.2.1 1536 (by norm_num) (by norm_num)).1

/-- C9, counterexample: the preset `yes/no` does not agree with the
general split-and-uppercase path — the preset yields `Yes` while the
general path yields `YES`. -/
theorem formatBoolean_not_uppercase_alias :
    formatBoolean true "yes/no" = "Yes" ∧ splitUpper true "yes/no" = "YES" ∧
    formatBoolean true "yes/no" ≠ splitUpper true "yes/no" := by
  refine ⟨rfl, by decide, by decide⟩

/-- C9, amended: for each preset token, `formatBoolean` returns the
selected segment of the token with its first letter capitalised — not the
fully uppercased segment of the general path. -/
theorem formatBoolean_presets_capitalize (value : Bool) (format : String)
    (h : format = "yes/no" ∨ format = "enabled/disabled" ∨
      format = "included/excluded") :
    formatBoolean value format = capFirst (splitSelect value format) := by
  rcases h with h | h | h <;> subst h <;> cases value <;> decide

/-- Witness for the amended C9 at the `enabled/disabled` preset. -/
theorem formatBoolean_presets_capitalize_witness :
    formatBoolean false "enabled/disabled" =
      capFirst (splitSelect false "enabled/disabled") :=
  formatBoolean_presets_capitalize false "enabled/disabled" (Or.inr (Or.inl rfl))

/-- C10: when the URL constructor accepts a string, per-item processing
opens it as-is — its whole event trace is the single open attempt, with no
containment check and no stat — and a containment-check event can only
ever name an input string that failed URL parsing. -/
theorem processUrl_parsed_bypasses (env : ProjectEditorEnv) (browser url : String) :
    (env.urlParses url = true →
      (processUrl env browser url).2 =
        [Event.openAttempt url (resolveBrowser env browser)] ∧
      (processUrl env browser url).1 = (openUrl env url browser).1) ∧
    (∀ p, Event.checkWithin p ∈ (processUrl env browser url).2 →
      env.urlParses url = false ∧ p = url) := by
  constructor
  · intro h
    constructor
    · cases henv : env.openOk url <;>
        simp [processUrl, isValidUrl, h, openUrl, henv]
    · simp [processUrl, isValidUrl, h]
  · intro p hp
    by_cases h : env.urlParses url
    · exfalso
      cases hok : env.openOk url <;>
        simp [processUrl, isValidUrl, h, openUrl, hok] at hp
    · have hfalse : env.urlParses url = false := by simpa using h
      refine ⟨hfalse, ?_⟩
      cases hst : env.statOk (env.resolveProjectFilePath url) <;>
        cases hok : env.openOk ("file://" ++ env.resolveProjectFilePath url) <;>
          simp [processUrl, isValidUrl, hfalse, resolveLocalPath, promiseIsTruthy,
            openUrl, hst, hok] at hp <;>
          tauto

/-- Witness for C10: a parsed URL is opened as-is with a bare
open-attempt trace. -/
theorem processUrl_parsed_bypasses_witness :
    (processUrl envParseAll "default" "https://example.com").2 =
      [Event.openAttempt "https://example.com" "browser"] ∧
    (processUrl envParseAll "default" "https://example.com").1 =
      (openUrl envParseAll "https://example.com" "default").1 :=
  (processUrl_parsed_bypasses envParseAll "default" "https://example.com").1 rfl

end BBTools
